import Mathlib

/-!
Verification development for the `uSPS30_I2C` MicroPython driver
(`u_sps30.py`, class `SPS30_I2C`).

The pure computations of the driver (CRC-8, frame verification, payload decoding)
are embedded as Lean functions over `List Nat` (byte values).  Stateful parts
(the class-level dictionaries and the class-level command lists, which in
Python are mutated in place and shared by every instance) are embedded by
explicit state passing: a `ClassDicts` value is the class-level storage, and
each operation takes the storage and returns the updated storage together
with its result.  Transport calls (`i2c.writeto` / `i2c.readfrom`) are
embedded by parameters describing their outcome: a `Bool` for whether a write
raises, an `Option (List Nat)` for the bytes a read returns (`none` = the
read raised).  `time.sleep` has no observable effect and is dropped.
-/

namespace SPS30

/-- Source `_crc8` inner loop body: one of the 8 per-byte iterations.
`if crc & 0x80: crc = (crc << 1) ^ 0x31 else: crc <<= 1; crc &= 0xFF`. -/
def crc8_round (crc : Nat) : Nat :=
  if crc &&& 0x80 ≠ 0 then ((crc <<< 1) ^^^ 0x31) &&& 0xFF
  else (crc <<< 1) &&& 0xFF

/-- Source `_crc8(data)`: CRC-8, polynomial `0x31`, initial value `0xFF`.
For each byte: `crc ^= byte`, then 8 rounds of `crc8_round`. -/
def _crc8 (data : List Nat) : Nat :=
  data.foldl (fun crc byte => crc8_round^[8] (crc ^^^ byte)) 0xFF

/-- Loop of source `_verify_crc`: checks consecutive `(b0, b1, checksum)`
groups.  The guard in `_verify_crc` ensures the input length is a multiple
of 3, so the catch-all case is only reached at `[]`. -/
def verifyGroups : List Nat → Bool
  | b0 :: b1 :: c :: rest => (_crc8 [b0, b1] == c) && verifyGroups rest
  | _ => true

/-- Source `_verify_crc(data)`: returns `false` when the length is not a
multiple of 3, otherwise checks the checksum of every 3-byte group. -/
def _verify_crc (data : List Nat) : Bool :=
  if data.length % 3 ≠ 0 then false else verifyGroups data

/-- Source `struct.unpack(">H", data_pair)[0]`: big-endian unsigned 16-bit
integer from two bytes. -/
def unpack_u16be (b0 b1 : Nat) : Nat := b0 * 256 + b1

/-- The 32-bit big-endian word formed from four bytes.  The source applies
`struct.unpack(">f", chunk)` to these four bytes; we model the decoded float
by the 32-bit word it reinterprets (the claims settled here only concern
which values are produced, not float arithmetic). -/
def unpack_word32be (b0 b1 b2 b3 : Nat) : Nat :=
  ((b0 * 256 + b1) * 256 + b2) * 256 + b3

/-- Source `_parse_uint_data` loop: `for i in range(0, len(raw_data), 3)`,
per group verify the CRC (`continue` past the group on mismatch), else
append `unpack(">H")` of the two data bytes.  On a trailing fragment of 1–2
bytes, `raw_data[i+2]` raises `IndexError` (caught by the `except`
branch of `read_data`), modelled as `none`. -/
def uint_groups : List Nat → Option (List Nat)
  | [] => some []
  | b0 :: b1 :: c :: rest =>
      (uint_groups rest).map
        (fun vs => if _crc8 [b0, b1] = c then unpack_u16be b0 b1 :: vs else vs)
  | _ => none

/-- Source `_parse_uint_data(raw_data)`. -/
def _parse_uint_data (raw_data : List Nat) : Option (List Nat) :=
  uint_groups raw_data

/-- Source `_parse_fp32_data` loop: `for i in range(0, len(raw_data), 6)`,
`chunk = raw_data[i:i+2] + raw_data[i+3:i+5]`, `struct.unpack(">f", chunk)`.
A trailing fragment of exactly 5 bytes still yields a full 4-byte chunk;
fragments of 1–4 bytes make `struct.unpack` raise (caught by `read_data`),
modelled as `none`. -/
def fp32_groups : List Nat → Option (List Nat)
  | [] => some []
  | [b0, b1, _, b3, b4] => some [unpack_word32be b0 b1 b3 b4]
  | b0 :: b1 :: _ :: b3 :: b4 :: _ :: rest =>
      (fp32_groups rest).map (fun vs => unpack_word32be b0 b1 b3 b4 :: vs)
  | _ => none

/-- Source `_parse_fp32_data(raw_data)`: calls `self._verify_crc(raw_data)`
and DISCARDS the result (the call only prints on mismatch), then decodes
every 6-byte block regardless.  The pair records (result of the discarded
verification, decoded values). -/
def _parse_fp32_data (raw_data : List Nat) : Bool × Option (List Nat) :=
  (_verify_crc raw_data, fp32_groups raw_data)

/-- Source `dict_register`, a dict with keys `"Fan speed error"`,
`"Laser error"`, `"Fan error"` in that order. -/
structure StatusRegister where
  fan_speed_error : Bool
  laser_error : Bool
  fan_error : Bool
deriving DecidableEq, Repr, BEq

/-- The class-level mutable storage of `SPS30_I2C`.  `dict_values`,
`dict_register` and `dict_firmware_version` are class attributes; `__init__`
never assigns instance attributes of these names, and every mutation in the
source is an item assignment (`self.dict_values[key] = val`), which mutates
the class-level dict itself.  `dict_values` is positional: entry `i`
corresponds to key `_values_keys[i]` (the 10 keys are distinct and fixed).
`cmd_start_measurement` is the class attribute `CMD_START_MEASUREMENT`,
a list that `start_measurement` mutates in place via `extend`/`append`. -/
structure ClassDicts where
  dict_values : List (Option Nat)
  dict_register : StatusRegister
  dict_firmware_version : Option Nat × Option Nat
  cmd_start_measurement : List Nat
deriving DecidableEq, BEq

/-- Source `_values_keys`: the fixed key order of `dict_values`. -/
def _values_keys : List String :=
  ["mc_pm1.0", "mc_pm2.5", "mc_pm4.0", "mc_pm10.0", "pc_pm0.5",
   "pc_pm1.0", "pc_pm2.5", "pc_pm4.0", "pc_pm10.0", "typical_size"]

/-- The class-level storage as it stands at class creation time:
all `dict_values` entries `None`, all register flags `False`, firmware
version `(None, None)`, `CMD_START_MEASUREMENT = [0x00, 0x10]`. -/
def initClassDicts : ClassDicts :=
  { dict_values := List.replicate 10 none
    dict_register := ⟨false, false, false⟩
    dict_firmware_version := (none, none)
    cmd_start_measurement := [0x00, 0x10] }

/-- One `SPS30_I2C` instance.  `__init__` assigns only `self.i2c` (dropped:
the transport is modelled per call), `self.datatype_init`, `self.datatype`
and `self.nbytes_measured_values`; `id` distinguishes instances. -/
structure Session where
  id : Nat
  datatype_init : String
  datatype : Nat
  nbytes_measured_values : Nat
deriving DecidableEq, BEq

/-- Source `__init__(self, i2c, datatype="UI16")`: `FP32` selects the
IEEE754 format byte `0x03` and a 60-byte measurement response; anything
else falls back to the unsigned-16-bit format byte `0x05` and 30 bytes
(printing a warning when the string is neither `"FP32"` nor `"UI16"`). -/
def Session.make (id : Nat) (datatype : String) : Session :=
  if datatype = "FP32" then ⟨id, datatype, 0x03, 60⟩
  else ⟨id, datatype, 0x05, 30⟩

/-- Python attribute lookup `instance.dict_values`: no instance attribute of
that name exists, so the lookup falls through to the class attribute — the
same storage for every instance. -/
def observed_dict_values (_s : Session) (cd : ClassDicts) : List (Option Nat) :=
  cd.dict_values

/-- Python attribute lookup `instance.dict_register` (class attribute,
shared by every instance). -/
def observed_dict_register (_s : Session) (cd : ClassDicts) : StatusRegister :=
  cd.dict_register

/-- Python attribute lookup `instance.dict_firmware_version` (class
attribute, shared by every instance). -/
def observed_dict_firmware_version (_s : Session) (cd : ClassDicts) :
    Option Nat × Option Nat :=
  cd.dict_firmware_version

/-- Source class attribute `CMD_WAKEUP = [0x11, 0x03]`. -/
def CMD_WAKEUP : List Nat := [0x11, 0x03]

/-- Source class attribute `CMD_READ_MEASURED_VALUES = [0x03, 0x00, 0x34]`
(the two-byte form `[0x03, 0x00]` appears only in a comment). -/
def CMD_READ_MEASURED_VALUES : List Nat := [0x03, 0x00, 0x34]

/-- Source class attribute `CMD_READ_STATUS_REGISTER = [0xD2, 0x06]`. -/
def CMD_READ_STATUS_REGISTER : List Nat := [0xD2, 0x06]

/-- The byte sequence `read_data` passes to `i2c.writeto`:
`bytes(self.CMD_READ_MEASURED_VALUES)`. -/
def read_data_write_frame : List Nat := CMD_READ_MEASURED_VALUES

/-- Source `wakeup(self)`: the trace of frames passed to `i2c.writeto`.
The body is `try: writeto(CMD_WAKEUP); time.sleep(0.05); writeto(CMD_WAKEUP)
except: return None`, so when the first write raises, the handler returns
after a single attempted write; when it succeeds the second write is
attempted whatever its own outcome.  `firstOk` says whether the first write
succeeds. -/
def wakeup_writes (firstOk : Bool) : List (List Nat) :=
  if firstOk then [CMD_WAKEUP, CMD_WAKEUP] else [CMD_WAKEUP]

/-- Source `start_measurement(self)`:
`data = self.CMD_START_MEASUREMENT` binds the class-level list itself;
`data.extend([self.datatype, 0x00])` and `data.append(self._crc8(data[2:4]))`
mutate that list in place; `i2c.writeto(addr, bytes(data))` then writes the
whole list.  Returns (frame passed to `writeto`, class-level list after the
call).  `cmd_state` is the class-level `CMD_START_MEASUREMENT` before the
call. -/
def start_measurement (s : Session) (cmd_state : List Nat) :
    List Nat × List Nat :=
  let d1 := cmd_state ++ [s.datatype, 0x00]
  let d2 := d1 ++ [_crc8 ((d1.drop 2).take 2)]
  (d2, d2)

/-- Source `zip(self._values_keys, data_values)` assignment loop in
`read_data`: positionally assigns each decoded value to the dict entry of
the corresponding key; entries beyond `data_values.length` keep their old
value, values beyond the 10 keys are ignored. -/
def zip_assign : List (Option Nat) → List Nat → List (Option Nat)
  | old, [] => old
  | [], _ :: _ => []
  | _ :: old, v :: vs => some v :: zip_assign old vs

/-- Result of source `read_data`: the `except` branch returns the empty
list `[]`; the normal path returns `self.dict_values` (a dict). -/
inductive ReadDataResult where
  | emptyList : ReadDataResult
  | values : List (Option Nat) → ReadDataResult
deriving DecidableEq, BEq

/-- Source `read_data(self)`: writes `CMD_READ_MEASURED_VALUES`, sleeps,
reads `self.nbytes_measured_values` bytes, parses per `datatype_init`
(`"UI16"` → `_parse_uint_data`, anything else → `_parse_fp32_data`),
assigns the decoded values into the shared `dict_values` via
`zip(_values_keys, data_values)` and returns that dict.  Any exception —
a failed write, a failed read, or an `IndexError`/`struct.error` inside the
parser — lands in the `except` branch, which returns `[]` and leaves the
dicts untouched.  `writeOk` = the write does not raise; `readRes` = bytes
returned by `i2c.readfrom` (`none` = the read raised). -/
def read_data (s : Session) (cd : ClassDicts) (writeOk : Bool)
    (readRes : Option (List Nat)) : ReadDataResult × ClassDicts :=
  if writeOk = false then (.emptyList, cd)
  else
    match readRes with
    | none => (.emptyList, cd)
    | some raw =>
        let parsed : Option (List Nat) :=
          if s.datatype_init = "UI16" then _parse_uint_data raw
          else (_parse_fp32_data raw).2
        match parsed with
        | none => (.emptyList, cd)
        | some data_values =>
            let newVals := zip_assign cd.dict_values data_values
            (.values newVals, { cd with dict_values := newVals })

/-- MSB-first bit expansion of one byte, source
`for i in range(7, -1, -1): register_bit.append((byte >> i) & 1 == 1)`. -/
def bitsMSB (b : Nat) : List Bool :=
  [b.testBit 7, b.testBit 6, b.testBit 5, b.testBit 4,
   b.testBit 3, b.testBit 2, b.testBit 1, b.testBit 0]

/-- Source `read_status_register(self)`: writes `CMD_READ_STATUS_REGISTER`,
reads 6 bytes (both inside `try`; a raise returns `None`), checks
`_verify_crc` (failure returns `None`), forms
`register_data = raw[0:2] + raw[3:5]`, expands it MSB-first into
`register_bit`, and stores bits 21 / 5 / 4 into the shared `dict_register`,
returning that dict.  (`getD _ false` is only a total stand-in for the list
indexing; for the 6-byte frames the device protocol fixes, all 32 bits
exist.) -/
def read_status_register (cd : ClassDicts) (writeOk : Bool)
    (readRes : Option (List Nat)) : Option StatusRegister × ClassDicts :=
  if writeOk = false then (none, cd)
  else
    match readRes with
    | none => (none, cd)
    | some raw =>
        if _verify_crc raw = false then (none, cd)
        else
          let register_data := raw.take 2 ++ (raw.drop 3).take 2
          let register_bit := (register_data.map bitsMSB).flatten
          let reg : StatusRegister :=
            { fan_speed_error := register_bit.getD 21 false
              laser_error := register_bit.getD 5 false
              fan_error := register_bit.getD 4 false }
          (some reg, { cd with dict_register := reg })

/-- Source `read_firmware_version(self)`: writes `CMD_FIRMWARE_VERSION`,
reads 3 bytes inside `try` (a raise returns `None`), checks `_verify_crc`
(failure returns `None`), then stores `raw[0]` / `raw[1]` as major/minor in
the shared `dict_firmware_version` and returns that dict.  A verified frame
is empty or has at least 3 bytes; on an empty frame `raw[0]` raises
`IndexError`, caught by the `except` branch. -/
def read_firmware_version (cd : ClassDicts) (readRes : Option (List Nat)) :
    Option (Option Nat × Option Nat) × ClassDicts :=
  match readRes with
  | none => (none, cd)
  | some raw =>
      if _verify_crc raw = false then (none, cd)
      else
        match raw with
        | b0 :: b1 :: _ =>
            let fw := (some b0, some b1)
            (some fw, { cd with dict_firmware_version := fw })
        | _ => (none, cd)

/-- Strip loop shared by `read_product_type` and `read_serial_number`:
`for i in range(0, len(raw_data), 3): chars.extend(raw_data[i:i+2])` —
drops every third byte; a trailing fragment of 1–2 bytes is kept whole. -/
def dataBytes : List Nat → List Nat
  | b0 :: b1 :: _ :: rest => b0 :: b1 :: dataBytes rest
  | l => l

/-- Python `str.isspace` characters relevant to `str.strip()`:
`\t \n \x0b \x0c \r` and space.  NUL (`0x00`) is NOT whitespace. -/
def isPySpace (c : Nat) : Bool :=
  c == 32 || c == 9 || c == 10 || c == 11 || c == 12 || c == 13

/-- Python `str.strip()` on a string of character codes: removes leading and
trailing whitespace characters only. -/
def pyStrip (l : List Nat) : List Nat :=
  ((l.dropWhile isPySpace).reverse.dropWhile isPySpace).reverse

/-- Python `str.rstrip` with argument `"0"`: removes trailing characters equal to the ASCII
digit `"0"` (code 48) — not the NUL character (code 0). -/
def pyRstripZero (l : List Nat) : List Nat :=
  (l.reverse.dropWhile (· == 48)).reverse

/-- Source `read_serial_number(self)`: writes `CMD_SERIAL_NUMBER` (outside
the `try`; assumed successful here), reads 48 bytes inside `try` (`none` =
the read raised, caught → `None`), checks `_verify_crc` (failure → `None`),
drops every third byte, decodes as ASCII (modelled as the identity on
character codes), applies `.strip()` then `.rstrip` with argument `"0"`. -/
def read_serial_number (readRes : Option (List Nat)) : Option (List Nat) :=
  match readRes with
  | none => none
  | some raw =>
      if _verify_crc raw = false then none
      else some (pyRstripZero (pyStrip (dataBytes raw)))

/-- Claim-side frame generator: the frame assembled from byte pairs, each
contributing the group `(b0, b1, _crc8 [b0, b1])`. -/
def buildFrame : List (Nat × Nat) → List Nat
  | [] => []
  | (b0, b1) :: rest => b0 :: b1 :: _crc8 [b0, b1] :: buildFrame rest

/-- Claim-side: the 32-bit status field formed from the data bytes of
groups 0 and 1 (bytes 0, 1, 3, 4 of the 6-byte frame), byte 0 most
significant. -/
def statusField (r0 r1 r3 r4 : Nat) : Nat :=
  ((r0 * 256 + r1) * 256 + r3) * 256 + r4

/-- Claim-side: bit index `k` of a 32-bit field, counted MSB-first
(index 0 = most significant bit). -/
def fieldBit (w k : Nat) : Bool := w.testBit (31 - k)


/-- Claim-side: a measurement response described group by group — each
3-byte group is an arbitrary triple `(b0, b1, c)` of data bytes and
checksum byte, valid or not.  `frameOfGroups` is the raw byte frame those
groups form. -/
def frameOfGroups : List (Nat × Nat × Nat) → List Nat
  | [] => []
  | (b0, b1, c) :: rest => b0 :: b1 :: c :: frameOfGroups rest

/-- Claim-side: the values of the groups that pass their per-group
checksum, decoded big-endian, in frame order (the groups whose checksum
byte does not match contribute nothing). -/
def passingValues : List (Nat × Nat × Nat) → List Nat
  | [] => []
  | (b0, b1, c) :: rest =>
      if _crc8 [b0, b1] = c then unpack_u16be b0 b1 :: passingValues rest
      else passingValues rest

/-- Claim-side: whether a group fails its per-group checksum. -/
def groupFails (g : Nat × Nat × Nat) : Prop := _crc8 [g.1, g.2.1] ≠ g.2.2

instance (g : Nat × Nat × Nat) : Decidable (groupFails g) :=
  inferInstanceAs (Decidable (_crc8 [g.1, g.2.1] ≠ g.2.2))

/-! ## Helper lemmas -/

/-- In a sum `a * 256 + b` of a high part and a byte, bit `j ≥ 8` comes from
the high part. -/
theorem testBit_base256_high (a b j : Nat) (hb : b < 256) (hj : 8 ≤ j) :
    (a * 256 + b).testBit j = a.testBit (j - 8) := by
  have hcomm : a * 256 + b = 2 ^ 8 * a + b := by ring
  rw [hcomm, Nat.testBit_mul_pow_two_add a (show b < 2 ^ 8 by omega) j, if_neg (by omega)]

/-- In a sum `a * 256 + b` of a high part and a byte, bit `j < 8` comes from
the byte. -/
theorem testBit_base256_low (a b j : Nat) (hb : b < 256) (hj : j < 8) :
    (a * 256 + b).testBit j = b.testBit j := by
  have hcomm : a * 256 + b = 2 ^ 8 * a + b := by ring
  rw [hcomm, Nat.testBit_mul_pow_two_add a (show b < 2 ^ 8 by omega) j, if_pos (by omega)]

/-- `_parse_uint_data` on a prefix of groups with matching checksums decodes
each prefix group and continues with the rest of the bytes. -/
theorem uint_groups_buildFrame_append (ps : List (Nat × Nat)) (rest : List Nat) :
    uint_groups (buildFrame ps ++ rest)
      = (uint_groups rest).map
          (fun vs => ps.map (fun p => unpack_u16be p.1 p.2) ++ vs) := by
  induction ps with
  | nil =>
      cases h : uint_groups rest <;> simp [buildFrame, h]
  | cons p t ih =>
      obtain ⟨b0, b1⟩ := p
      cases h : uint_groups rest <;>
        simp [buildFrame, uint_groups, ih, h, Option.map_map]

/-- A group whose checksum byte does not match is skipped by
`_parse_uint_data`. -/
theorem uint_groups_skip (b0 b1 c : Nat) (rest : List Nat)
    (h : _crc8 [b0, b1] ≠ c) :
    uint_groups (b0 :: b1 :: c :: rest) = uint_groups rest := by
  cases hr : uint_groups rest <;> simp [uint_groups, hr, h]

/-- `_parse_uint_data` on a frame of groups with matching checksums decodes
every group in order. -/
theorem uint_groups_buildFrame (ps : List (Nat × Nat)) :
    uint_groups (buildFrame ps)
      = some (ps.map (fun p => unpack_u16be p.1 p.2)) := by
  have h := uint_groups_buildFrame_append ps []
  simpa [uint_groups] using h

/-- The `zip(_values_keys, data_values)` assignment: when there are no more
decoded values than dict entries, the first `vs.length` entries are
overwritten in order and the remaining entries keep their old values. -/
theorem zip_assign_of_le (old : List (Option Nat)) (vs : List Nat)
    (h : vs.length ≤ old.length) :
    zip_assign old vs = vs.map some ++ old.drop vs.length := by
  induction vs generalizing old with
  | nil => simp [zip_assign]
  | cons v t ih =>
      cases old with
      | nil => simp at h
      | cons o os =>
          simp only [zip_assign, List.map_cons, List.cons_append,
            List.length_cons, List.drop_succ_cons]
          exact congrArg _ (ih os (by simpa using h))

/-- `_parse_uint_data` on the frame formed by any list of groups decodes
exactly the passing groups, in order, never raising. -/
theorem uint_groups_frameOfGroups (gs : List (Nat × Nat × Nat)) :
    uint_groups (frameOfGroups gs) = some (passingValues gs) := by
  induction gs with
  | nil => rfl
  | cons g rest ih =>
      obtain ⟨b0, b1, c⟩ := g
      simp only [frameOfGroups, uint_groups, ih, Option.map_some, passingValues]
      split <;> rfl

/-- There are never more passing groups than groups. -/
theorem passingValues_length_le (gs : List (Nat × Nat × Nat)) :
    (passingValues gs).length ≤ gs.length := by
  induction gs with
  | nil => exact Nat.le_refl 0
  | cons g rest ih =>
      obtain ⟨b0, b1, c⟩ := g
      simp only [passingValues, List.length_cons]
      split
      · simpa using ih
      · omega

/-- When at least one group fails its checksum, strictly fewer values than
groups are decoded. -/
theorem passingValues_length_lt (gs : List (Nat × Nat × Nat))
    (h : ∃ g ∈ gs, groupFails g) :
    (passingValues gs).length < gs.length := by
  induction gs with
  | nil => simp at h
  | cons g rest ih =>
      obtain ⟨b0, b1, c⟩ := g
      rcases h with ⟨g, hg, hfail⟩
      rcases List.mem_cons.mp hg with hhead | htail
      · subst hhead
        simp only [passingValues, List.length_cons]
        rw [if_neg hfail]
        have := passingValues_length_le rest
        omega
      · have hlt := ih ⟨g, htail, hfail⟩
        simp only [passingValues, List.length_cons]
        split
        · simpa using hlt
        · omega

/-! ## Claims -/

/-- Claim C1: the spec says every call to `start_measurement()` writes
exactly the 5-byte frame (opcode `0x00 0x10`, format byte, `0x00`,
checksum).  The code violates this: `data = self.CMD_START_MEASUREMENT`
aliases the class-level list and `extend`/`append` mutate it in place, so
the first call writes the 5-byte frame but the second call writes an 8-byte
frame (and the list keeps growing).  This theorem evaluates both calls in
float mode. -/
theorem start_measurement_regrows_command_list :
    (start_measurement (Session.make 0 "FP32")
        initClassDicts.cmd_start_measurement).1
      = [0x00, 0x10, 0x03, 0x00, 0xAC] ∧
    (start_measurement (Session.make 0 "FP32")
        (start_measurement (Session.make 0 "FP32")
          initClassDicts.cmd_start_measurement).2).1
      = [0x00, 0x10, 0x03, 0x00, 0xAC, 0x03, 0x00, 0xAC] ∧
    (start_measurement (Session.make 0 "FP32")
        (start_measurement (Session.make 0 "FP32")
          initClassDicts.cmd_start_measurement).2).1.length = 8 := by
  decide

/-- Claim C2, as stated, is false: the command frame `read_data` writes is
`bytes(CMD_READ_MEASURED_VALUES)` and that class constant is the 3-byte
list `[0x03, 0x00, 0x34]`, not the bare 2-byte opcode `[0x03, 0x00]`. -/
theorem read_data_command_not_two_bytes :
    (read_data_write_frame == [0x03, 0x00]) = false := by
  decide

/-- Claim C2 (amended): every call to `read_data` writes exactly the 3-byte
sequence `0x03 0x00 0x34`. -/
theorem read_data_command_is_three_bytes :
    read_data_write_frame = [0x03, 0x00, 0x34] ∧
    read_data_write_frame.length = 3 := by
  decide

/-- Claim C3, as stated, is false: when the first transport write raises,
the `except` handler returns and only one write call was issued. -/
theorem wakeup_single_write_on_first_failure :
    wakeup_writes false = [[0x11, 0x03]] ∧
    ((wakeup_writes false).length == 2) = false := by
  decide

/-- Claim C3 (amended): `wakeup()` issues exactly two write calls when the
first write succeeds (whatever the second one does) and exactly one write
call when the first write fails; every issued write carries the wakeup
opcode `0x11 0x03`. -/
theorem wakeup_writes_count (b : Bool) :
    (wakeup_writes b).length = (if b then 2 else 1) ∧
    ((wakeup_writes b).all (fun f => f == [0x11, 0x03])) = true := by
  cases b <;> exact ⟨rfl, rfl⟩

/-- Claim C4: the spec says `_parse_fp32_data` reports a CRC mismatch and
produces no decoded values when verification fails.  The code violates
this: it calls `_verify_crc` but discards the result and decodes anyway.
On the all-zero 60-byte frame, verification fails (CRC of `(0, 0)` is
`0x81`, not `0`), yet 10 values are decoded and `read_data` in FP32 mode
returns a fully populated dict built from the corrupt frame. -/
theorem parse_fp32_decodes_despite_crc_failure :
    _verify_crc (List.replicate 60 0) = false ∧
    (_parse_fp32_data (List.replicate 60 0)).1 = false ∧
    (_parse_fp32_data (List.replicate 60 0)).2 = some (List.replicate 10 0) ∧
    (read_data (Session.make 0 "FP32") initClassDicts true
        (some (List.replicate 60 0))).1
      = ReadDataResult.values (List.replicate 10 (some 0)) := by
  decide

/-- Claim C6, as stated, is false: on a 48-byte frame with valid checksums
whose decoded ASCII payload is `12345`, three spaces, then NUL padding,
`read_serial_number` does not return the bare `12345` (codes 49–53):
`.strip()` removes only whitespace (NUL is not whitespace, and the spaces
are not at the end of the string), and `.rstrip` with argument `"0"`
removes only trailing digit-zero characters (code 48), not NUL (code 0). -/
theorem read_serial_number_keeps_nul_padding :
    (read_serial_number
        (some (buildFrame ([(49, 50), (51, 52), (53, 32), (32, 32)]
          ++ List.replicate 12 (0, 0))))
      == some [49, 50, 51, 52, 53]) = false := by
  decide

/-- Claim C6 (amended): on that frame `read_serial_number` returns the
decoded 32-character payload unchanged — `12345`, three spaces and the NUL
padding all survive both trims. -/
theorem read_serial_number_returns_payload_unchanged :
    read_serial_number
        (some (buildFrame ([(49, 50), (51, 52), (53, 32), (32, 32)]
          ++ List.replicate 12 (0, 0))))
      = some ([49, 50, 51, 52, 53, 32, 32, 32] ++ List.replicate 24 0) := by
  decide

/-- Claim C7: when the transport write or read raises during `read_data`,
the operation returns the empty list, which is a different constructor from
any populated dict result, and the stored dicts are untouched (no checksum
machinery runs at all on this path). -/
theorem read_data_transport_error_returns_empty
    (s : Session) (cd : ClassDicts) (writeOk : Bool)
    (readRes : Option (List Nat))
    (h : writeOk = false ∨ readRes = none) :
    (read_data s cd writeOk readRes).1 = ReadDataResult.emptyList ∧
    (read_data s cd writeOk readRes).2 = cd ∧
    ∀ d : List (Option Nat),
      ReadDataResult.emptyList ≠ ReadDataResult.values d := by
  rcases h with h | h
  · subst h
    exact ⟨rfl, rfl, fun d hd => ReadDataResult.noConfusion hd⟩
  · subst h
    cases writeOk <;>
      exact ⟨rfl, rfl, fun d hd => ReadDataResult.noConfusion hd⟩

/-- Witness for claim C7 at a concrete input: a failed write in UI16 mode. -/
theorem read_data_transport_error_returns_empty_witness :
    (false = false ∨ (some ([] : List Nat)) = none) ∧
    ((read_data (Session.make 0 "UI16") initClassDicts false (some [])).1
        = ReadDataResult.emptyList ∧
     (read_data (Session.make 0 "UI16") initClassDicts false (some [])).2
        = initClassDicts ∧
     ∀ d : List (Option Nat),
       ReadDataResult.emptyList ≠ ReadDataResult.values d) :=
  ⟨Or.inl rfl,
   read_data_transport_error_returns_empty (Session.make 0 "UI16")
     initClassDicts false (some []) (Or.inl rfl)⟩

/-- Claim C9: for every sequence of byte pairs, the frame assembled by
appending to each pair its `_crc8` checksum passes `_verify_crc` —
checksum generation and verification round-trip. -/
theorem verify_crc_buildFrame (pairs : List (Nat × Nat)) :
    _verify_crc (buildFrame pairs) = true := by
  have hlen : ∀ ps : List (Nat × Nat), (buildFrame ps).length = 3 * ps.length := by
    intro ps
    induction ps with
    | nil => rfl
    | cons p rest ih =>
        obtain ⟨b0, b1⟩ := p
        simp [buildFrame, ih]
        ring
  have hgroups : ∀ ps : List (Nat × Nat), verifyGroups (buildFrame ps) = true := by
    intro ps
    induction ps with
    | nil => rfl
    | cons p rest ih =>
        obtain ⟨b0, b1⟩ := p
        simp [buildFrame, verifyGroups, ih]
  unfold _verify_crc
  rw [hlen pairs]
  simp [Nat.mul_mod_right, hgroups pairs]

/-- Claim C5, as stated, is false: `dict_values` is a class attribute, so a
successful `read_data` on one instance changes the dict observed through
every other instance.  Concretely: two distinct sessions; after session 1
reads a valid 30-byte UI16 frame, the dict session 2 observes differs from
what it observed before. -/
theorem read_data_updates_other_sessions_view :
    ((Session.make 1 "UI16") == (Session.make 2 "FP32")) = false ∧
    (observed_dict_values (Session.make 2 "FP32")
        (read_data (Session.make 1 "UI16") initClassDicts true
          (some (buildFrame (List.replicate 10 (0, 7))))).2
      == observed_dict_values (Session.make 2 "FP32") initClassDicts) = false := by
  decide

/-- Claim C5 (amended): `dict_values`, `dict_register` and
`dict_firmware_version` are class-level attributes shared by every
instance: any two sessions always observe the same storage, and after a
successful `read_data` on one session every other session observes exactly
the freshly decoded values. -/
theorem class_dicts_shared_across_sessions
    (s1 s2 : Session) (cd : ClassDicts) (pairs : List (Nat × Nat))
    (hdt : s1.datatype_init = "UI16")
    (hlen : cd.dict_values.length = 10)
    (hp : pairs.length = 10) :
    observed_dict_values s1 cd = observed_dict_values s2 cd ∧
    observed_dict_register s1 cd = observed_dict_register s2 cd ∧
    observed_dict_firmware_version s1 cd = observed_dict_firmware_version s2 cd ∧
    observed_dict_values s2
        (read_data s1 cd true (some (buildFrame pairs))).2
      = (pairs.map (fun p => unpack_u16be p.1 p.2)).map some := by
  refine ⟨rfl, rfl, rfl, ?_⟩
  have hparse : _parse_uint_data (buildFrame pairs)
      = some (pairs.map (fun p => unpack_u16be p.1 p.2)) :=
    uint_groups_buildFrame pairs
  have hz : zip_assign cd.dict_values (pairs.map (fun p => unpack_u16be p.1 p.2))
      = (pairs.map (fun p => unpack_u16be p.1 p.2)).map some := by
    rw [zip_assign_of_le _ _ (by simp [hp, hlen])]
    have hdrop : cd.dict_values.drop
        (pairs.map (fun p => unpack_u16be p.1 p.2)).length = [] := by
      apply List.drop_eq_nil_of_le
      simp [hp, hlen]
    rw [hdrop, List.append_nil]
  simp only [read_data, hdt, if_pos, hparse, observed_dict_values]
  simpa using hz

/-- Witness for claim C5 (amended) at concrete sessions, the initial class
storage and a frame of ten groups encoding the value 7. -/
theorem class_dicts_shared_across_sessions_witness :
    ((Session.make 1 "UI16").datatype_init = "UI16" ∧
     initClassDicts.dict_values.length = 10 ∧
     (List.replicate 10 ((0 : Nat), (7 : Nat))).length = 10) ∧
    (observed_dict_values (Session.make 1 "UI16") initClassDicts
        = observed_dict_values (Session.make 2 "FP32") initClassDicts ∧
     observed_dict_register (Session.make 1 "UI16") initClassDicts
        = observed_dict_register (Session.make 2 "FP32") initClassDicts ∧
     observed_dict_firmware_version (Session.make 1 "UI16") initClassDicts
        = observed_dict_firmware_version (Session.make 2 "FP32") initClassDicts ∧
     observed_dict_values (Session.make 2 "FP32")
         (read_data (Session.make 1 "UI16") initClassDicts true
           (some (buildFrame (List.replicate 10 (0, 7))))).2
       = ((List.replicate 10 ((0 : Nat), (7 : Nat))).map
           (fun p => unpack_u16be p.1 p.2)).map some) :=
  ⟨⟨by decide, by decide, by decide⟩,
   class_dicts_shared_across_sessions (Session.make 1 "UI16")
     (Session.make 2 "FP32") initClassDicts (List.replicate 10 (0, 7))
     (by decide) (by decide) (by decide)⟩

/-- Claim C8: on a 6-byte status frame with valid per-group checksums,
`read_status_register` decodes the three flags from bit indices 21, 5 and 4
(MSB-first) of the 32-bit field formed from the data bytes of groups 0 and
1, and stores them in the shared `dict_register`. -/
theorem read_status_register_decodes_bits
    (r0 r1 r3 r4 c1 c2 : Nat) (cd : ClassDicts)
    (h1 : r1 < 256) (h3 : r3 < 256) (h4 : r4 < 256)
    (hc1 : _crc8 [r0, r1] = c1) (hc2 : _crc8 [r3, r4] = c2) :
    (read_status_register cd true (some [r0, r1, c1, r3, r4, c2])).1
      = some ⟨fieldBit (statusField r0 r1 r3 r4) 21,
              fieldBit (statusField r0 r1 r3 r4) 5,
              fieldBit (statusField r0 r1 r3 r4) 4⟩ ∧
    (read_status_register cd true (some [r0, r1, c1, r3, r4, c2])).2.dict_register
      = ⟨fieldBit (statusField r0 r1 r3 r4) 21,
         fieldBit (statusField r0 r1 r3 r4) 5,
         fieldBit (statusField r0 r1 r3 r4) 4⟩ := by
  have hv : _verify_crc [r0, r1, c1, r3, r4, c2] = true := by
    subst hc1
    subst hc2
    simp [_verify_crc, verifyGroups]
  have hb21 : fieldBit (statusField r0 r1 r3 r4) 21 = r3.testBit 2 := by
    show (((r0 * 256 + r1) * 256 + r3) * 256 + r4).testBit (31 - 21) = r3.testBit 2
    rw [show (31 - 21 : Nat) = 10 from rfl,
      testBit_base256_high _ _ _ h4 (by omega),
      show (10 - 8 : Nat) = 2 from rfl,
      testBit_base256_low _ _ _ h3 (by omega)]
  have hb5 : fieldBit (statusField r0 r1 r3 r4) 5 = r0.testBit 2 := by
    show (((r0 * 256 + r1) * 256 + r3) * 256 + r4).testBit (31 - 5) = r0.testBit 2
    rw [show (31 - 5 : Nat) = 26 from rfl,
      testBit_base256_high _ _ _ h4 (by omega),
      show (26 - 8 : Nat) = 18 from rfl,
      testBit_base256_high _ _ _ h3 (by omega),
      show (18 - 8 : Nat) = 10 from rfl,
      testBit_base256_high _ _ _ h1 (by omega),
      show (10 - 8 : Nat) = 2 from rfl]
  have hb4 : fieldBit (statusField r0 r1 r3 r4) 4 = r0.testBit 3 := by
    show (((r0 * 256 + r1) * 256 + r3) * 256 + r4).testBit (31 - 4) = r0.testBit 3
    rw [show (31 - 4 : Nat) = 27 from rfl,
      testBit_base256_high _ _ _ h4 (by omega),
      show (27 - 8 : Nat) = 19 from rfl,
      testBit_base256_high _ _ _ h3 (by omega),
      show (19 - 8 : Nat) = 11 from rfl,
      testBit_base256_high _ _ _ h1 (by omega),
      show (11 - 8 : Nat) = 3 from rfl]
  rw [hb21, hb5, hb4]
  constructor <;> simp [read_status_register, hv, bitsMSB, List.getD]

/-- Witness for claim C8: the frame with data bytes `0x00 0x00 0x04 0x00`
(bit 21 set, bits 4 and 5 clear) decodes to fan-speed error true, laser
error false, fan error false. -/
theorem read_status_register_decodes_bits_witness :
    ((0 : Nat) < 256 ∧ (4 : Nat) < 256 ∧ (0 : Nat) < 256 ∧
     _crc8 [0, 0] = _crc8 [0, 0] ∧ _crc8 [4, 0] = _crc8 [4, 0]) ∧
    ((read_status_register initClassDicts true
        (some [0, 0, _crc8 [0, 0], 4, 0, _crc8 [4, 0]])).1
      = some ⟨fieldBit (statusField 0 0 4 0) 21,
              fieldBit (statusField 0 0 4 0) 5,
              fieldBit (statusField 0 0 4 0) 4⟩ ∧
     (read_status_register initClassDicts true
        (some [0, 0, _crc8 [0, 0], 4, 0, _crc8 [4, 0]])).2.dict_register
      = ⟨fieldBit (statusField 0 0 4 0) 21,
         fieldBit (statusField 0 0 4 0) 5,
         fieldBit (statusField 0 0 4 0) 4⟩) ∧
    (fieldBit (statusField 0 0 4 0) 21 = true ∧
     fieldBit (statusField 0 0 4 0) 5 = false ∧
     fieldBit (statusField 0 0 4 0) 4 = false) :=
  ⟨⟨by decide, by decide, by decide, rfl, rfl⟩,
   read_status_register_decodes_bits 0 0 4 0 (_crc8 [0, 0]) (_crc8 [4, 0])
     initClassDicts (by decide) (by decide) (by decide) rfl rfl,
   by decide⟩

/-- Claim C10: in UI16 mode, when one or more groups of the 30-byte
measurement response fail their per-group checksum, `read_data` assigns the
values decoded from the passing groups, in frame order, to the first dict
entries — so a value decoded from group `i` lands on the key of an earlier
position whenever any preceding group was skipped — and every entry past
the last decoded value keeps its previous, stale value: strictly fewer than
10 values are decoded, so the `drop` tail is nonempty.  `gs` ranges over
all 10-group frames, with any number of failing groups at any positions. -/
theorem read_data_uint_skipped_group_shifts_labels
    (gs : List (Nat × Nat × Nat)) (cd : ClassDicts)
    (hlen : cd.dict_values.length = 10)
    (hg : gs.length = 10)
    (hbad : ∃ g ∈ gs, groupFails g) :
    (read_data (Session.make 0 "UI16") cd true (some (frameOfGroups gs))).1
      = ReadDataResult.values ((passingValues gs).map some
          ++ cd.dict_values.drop (passingValues gs).length) ∧
    (read_data (Session.make 0 "UI16") cd true
        (some (frameOfGroups gs))).2.dict_values
      = (passingValues gs).map some
          ++ cd.dict_values.drop (passingValues gs).length ∧
    (passingValues gs).length < 10 := by
  have hle : (passingValues gs).length ≤ gs.length := passingValues_length_le gs
  have hlt : (passingValues gs).length < 10 := by
    have := passingValues_length_lt gs hbad
    omega
  have hparse : _parse_uint_data (frameOfGroups gs) = some (passingValues gs) :=
    uint_groups_frameOfGroups gs
  have hz : zip_assign cd.dict_values (passingValues gs)
      = (passingValues gs).map some
          ++ cd.dict_values.drop (passingValues gs).length :=
    zip_assign_of_le _ _ (by omega)
  have hdt : (Session.make 0 "UI16").datatype_init = "UI16" := by decide
  refine ⟨?_, ?_, hlt⟩
  all_goals
    simp only [read_data, hdt, if_pos, hparse]
    rw [hz]
    simp

/-- Witness for claim C10 with two failing groups: groups 0 and 1 carry
bad checksum bytes, the remaining eight groups each encode the value 7;
the eight decoded values land on the first eight keys (each shifted two
positions earlier than its group) and the last two entries keep their old
values. -/
theorem read_data_uint_skipped_group_shifts_labels_witness :
    (initClassDicts.dict_values.length = 10 ∧
     ((0, 0, 0) :: (1, 1, 1)
        :: List.replicate 8 ((0 : Nat), (7 : Nat), _crc8 [0, 7])).length = 10 ∧
     (∃ g ∈ (0, 0, 0) :: (1, 1, 1)
        :: List.replicate 8 ((0 : Nat), (7 : Nat), _crc8 [0, 7]),
        groupFails g)) ∧
    ((read_data (Session.make 0 "UI16") initClassDicts true
        (some (frameOfGroups ((0, 0, 0) :: (1, 1, 1)
          :: List.replicate 8 ((0 : Nat), (7 : Nat), _crc8 [0, 7]))))).1
      = ReadDataResult.values
          ((passingValues ((0, 0, 0) :: (1, 1, 1)
              :: List.replicate 8 ((0 : Nat), (7 : Nat), _crc8 [0, 7]))).map some
            ++ initClassDicts.dict_values.drop
                (passingValues ((0, 0, 0) :: (1, 1, 1)
                  :: List.replicate 8
                      ((0 : Nat), (7 : Nat), _crc8 [0, 7]))).length) ∧
     (read_data (Session.make 0 "UI16") initClassDicts true
        (some (frameOfGroups ((0, 0, 0) :: (1, 1, 1)
          :: List.replicate 8
              ((0 : Nat), (7 : Nat), _crc8 [0, 7]))))).2.dict_values
      = (passingValues ((0, 0, 0) :: (1, 1, 1)
            :: List.replicate 8 ((0 : Nat), (7 : Nat), _crc8 [0, 7]))).map some
          ++ initClassDicts.dict_values.drop
              (passingValues ((0, 0, 0) :: (1, 1, 1)
                :: List.replicate 8
                    ((0 : Nat), (7 : Nat), _crc8 [0, 7]))).length ∧
     (passingValues ((0, 0, 0) :: (1, 1, 1)
        :: List.replicate 8 ((0 : Nat), (7 : Nat), _crc8 [0, 7]))).length < 10) :=
  ⟨⟨by decide, by decide, by decide⟩,
   read_data_uint_skipped_group_shifts_labels
     ((0, 0, 0) :: (1, 1, 1) :: List.replicate 8 (0, 7, _crc8 [0, 7]))
     initClassDicts (by decide) (by decide) (by decide)⟩

end SPS30
